import Mathlib

/-!
loadpackage: Load, Validate and the aggregate Error.

A shallow embedding of `src/loadpackage.go`.

* Go strings are Lean `String`s (sequences of characters; `.` is one byte in UTF-8, so a
  search for `...` by characters and by bytes agree on well-formed text); a nilable pointer
  `*T` is `Option T`; a slice is a `List`.
* The types of `golang.org/x/tools/go/packages` are external.  `packages.Error` is a type
  parameter `PErr` together with its text method `errText : PErr → String`
  (`err.Error()` in the source); `packages.Config` is a type parameter `Cfg`.
  Of `packages.Package` and `packages.Module` the embedding keeps the fields the source
  reads (`Errors`, `Module`, `Error`) and one identifying field each.
* `packages.Load` is a parameter `loader`: any function from a configuration and a list of
  patterns to a pair (descriptors, error).  `Load` records every call it makes to the
  loader in the `calls` component of its result.
-/

set_option autoImplicit false
set_option linter.dupNamespace false

namespace Loadpackage

/-- External `packages.ModuleError`: the source reads its string field `Err`. -/
structure ModuleError where
  Err : String
  deriving DecidableEq, Repr

/-- External `packages.Module`: `Error` is the nilable `*ModuleError` the source reads;
`Path` stands for the remaining fields. -/
structure Module where
  Path : String
  Error : Option ModuleError
  deriving DecidableEq, Repr

/-- External `packages.Package` over the external error type `PErr`: `Errors` and `Module`
are the fields the source reads; `ID` stands for the remaining fields. -/
structure Package (PErr : Type) where
  ID : String
  Errors : List PErr
  Module : Option Module
  deriving DecidableEq, Repr

/-- The `Error` struct of the source (lines 55-58). -/
structure Error (PErr : Type) where
  Errors : List PErr
  ModuleError : Option ModuleError
  deriving DecidableEq, Repr

/-- Values of the Go interface `error` that occur in the program: the result of
`errors.New`, a `*Error` of this package, a `packages.Error` value (the elements of
`Unwrap`), and any other implementation (of type `Ext`) the loader may return. -/
inductive GoError (PErr Ext : Type) where
  | errorString (s : String)
  | aggregate (e : Error PErr)
  | packagesError (e : PErr)
  | foreign (x : Ext)
  deriving DecidableEq, Repr

/-- What `packages.Load` returns: `([]*packages.Package, error)`. -/
abbrev LoaderResult (PErr Ext : Type) : Type :=
  List (Option (Package PErr)) × Option (GoError PErr Ext)

/-- The result of `Load`: the pair `(*packages.Package, error)` of the source, and the
list of calls made to the external loader (configuration and variadic patterns). -/
structure LoadResult (PErr Ext Cfg : Type) where
  pkg : Option (Package PErr)
  err : Option (GoError PErr Ext)
  calls : List (Cfg × List String)
  deriving DecidableEq, Repr

/-- Whether the characters of the second list stand at the start of the first. -/
def matchesAt : List Char → List Char → Bool
  | _, [] => true
  | [], _ :: _ => false
  | c :: cs, p :: ps => c == p && matchesAt cs ps

/-- Search for `sub` at every position of `s`, left to right. -/
def containsFrom (sub : List Char) : List Char → Bool
  | [] => matchesAt [] sub
  | c :: cs => matchesAt (c :: cs) sub || containsFrom sub cs

/-- External `strings.Contains(s, substr)`: whether `substr` is within `s`. -/
def stringsContains (s substr : String) : Bool :=
  containsFrom substr.toList s.toList

/-- Embedding of `Validate` (lines 40-53). -/
def Validate {PErr Ext : Type} (pkg : Option (Package PErr)) : Option (GoError PErr Ext) :=
  match pkg with
  | none => some (GoError.errorString "package is nil")
  | some p =>
    let moduleOk : Bool :=
      match p.Module with
      | none => true
      | some m => m.Error.isNone
    if p.Errors.length = 0 ∧ moduleOk = true then
      none
    else
      let e : Error PErr :=
        { Errors := p.Errors
          ModuleError :=
            match p.Module with
            | some m => m.Error
            | none => none }
      some (GoError.aggregate e)

/-- Embedding of `Load` (lines 13-38), over the external loader `loader`. -/
def Load {PErr Ext Cfg : Type} (loader : Cfg → List String → LoaderResult PErr Ext)
    (pattern : String) (cfg : Cfg) : LoadResult PErr Ext Cfg :=
  if pattern = "main" ∨ pattern = "pattern=main" ∨
      pattern = "all" ∨ pattern = "pattern=all" ∨
      pattern = "std" ∨ pattern = "pattern=std" ∨
      pattern = "cmd" ∨ pattern = "pattern=cmd" ∨
      pattern = "tool" ∨ pattern = "pattern=tool" then
    ⟨none, some (GoError.errorString "pattern cannot be a reserved name"), []⟩
  else if stringsContains pattern "..." then
    ⟨none, some (GoError.errorString "pattern cannot contain wildcards"), []⟩
  else
    let (pkgs, err) := loader cfg [pattern]
    let calls := [(cfg, [pattern])]
    match err with
    | some l => ⟨none, some l, calls⟩
    | none =>
      match pkgs with
      | [p0] =>
        match Validate p0 with
        | some v => ⟨none, some v, calls⟩
        | none => ⟨p0, none, calls⟩
      | _ => ⟨none, some (GoError.errorString "expected exactly one package"), calls⟩

/-- Embedding of `(*Error).Error` (lines 60-72): the string builder is the accumulator of the loop over
the indexed entries of `e.Errors`. -/
def Error.Error {PErr : Type} (errText : PErr → String) (e : Loadpackage.Error PErr) : String :=
  let sb := e.Errors.enum.foldl
    (fun (sb : String) (ie : Nat × PErr) =>
      let sb := sb ++ errText ie.2
      if e.ModuleError ≠ none ∨ (ie.1 : Int) < (e.Errors.length : Int) - 1 then
        sb.push '\n'
      else sb) ""
  match e.ModuleError with
  | some m => sb ++ m.Err
  | none => sb

/-- Embedding of `(*Error).Unwrap` (lines 74-80): every `packages.Error` appended as an `error`. -/
def Error.Unwrap {PErr Ext : Type} (e : Loadpackage.Error PErr) : List (GoError PErr Ext) :=
  e.Errors.foldl (fun errs err => errs ++ [GoError.packagesError err]) []

/-- The ten reserved names as the specification lists them (section 4.1). -/
def reservedNames : List String :=
  ["main", "pattern=main", "all", "pattern=all", "std", "pattern=std",
   "cmd", "pattern=cmd", "tool", "pattern=tool"]

/-- The specification's wording "contains the substring `sub`": the pattern splits into a
text before, `sub`, and a text after. -/
def ContainsSubstring (pattern sub : String) : Prop :=
  ∃ pre post : String, pattern = pre ++ sub ++ post

/-! Sample inputs -/

/-- A descriptor without errors and without a module. -/
def samplePkgClean : Package String :=
  ⟨"fmt", [], none⟩

/-- A descriptor with two per-package errors and a module that carries a module error. -/
def samplePkgBroken : Package String :=
  ⟨"example.com/m/p", ["p.go:1:1: undefined: x", "p.go:2:1: missing return"],
    some ⟨"example.com/m", some ⟨"module lookup disabled"⟩⟩⟩

/-- A loader behaviour: one clean descriptor for "fmt", one broken descriptor for
"example.com/m/p", two descriptors for "./a", an error next to a descriptor for "gone",
and no descriptor for anything else. -/
def sampleLoader : Unit → List String → LoaderResult String Unit
  | _, ["fmt"] => ([some samplePkgClean], none)
  | _, ["example.com/m/p"] => ([some samplePkgBroken], none)
  | _, ["./a"] => ([some samplePkgClean, some samplePkgBroken], none)
  | _, ["gone"] => ([some samplePkgClean], some (GoError.foreign ()))
  | _, _ => ([], none)

/-- A descriptor without per-package errors whose module carries a module error. -/
def samplePkgModuleOnly : Package String :=
  ⟨"example.com/m/q", [], some ⟨"example.com/m", some ⟨"go.mod is missing"⟩⟩⟩

/-- A loader behaviour that succeeds with a single absent (nil) descriptor. -/
def nilLoader : Unit → List String → LoaderResult String Unit :=
  fun _ _ => ([none], none)

/-- A loader behaviour that answers with one clean descriptor whose `ID` records the
configuration and the patterns it was called with. -/
def echoLoader : String → List String → LoaderResult String Unit :=
  fun cfg patterns => ([some ⟨cfg ++ " " ++ String.intercalate "," patterns, [], none⟩], none)

/-! Substring search -/

theorem matchesAt_iff (s p : List Char) : matchesAt s p = true ↔ ∃ t, s = p ++ t := by
  induction p generalizing s with
  | nil => simp [matchesAt]
  | cons a p ih =>
    cases s with
    | nil => simp [matchesAt]
    | cons c cs =>
      simp only [matchesAt, Bool.and_eq_true, beq_iff_eq, ih, List.cons_append,
        List.cons.injEq]
      constructor
      · rintro ⟨h1, t, ht⟩
        exact ⟨t, h1, ht⟩
      · rintro ⟨t, h1, ht⟩
        exact ⟨h1, t, ht⟩

theorem containsFrom_iff (sub s : List Char) :
    containsFrom sub s = true ↔ ∃ a b, s = a ++ sub ++ b := by
  induction s with
  | nil =>
    simp only [containsFrom, matchesAt_iff]
    constructor
    · rintro ⟨t, ht⟩
      exact ⟨[], t, by simpa using ht⟩
    · rintro ⟨a, b, hab⟩
      have h1 : a = [] := by
        cases a with
        | nil => rfl
        | cons x xs => simp at hab
      subst h1
      exact ⟨b, by simpa using hab⟩
  | cons c cs ih =>
    simp only [containsFrom, Bool.or_eq_true, matchesAt_iff, ih]
    constructor
    · rintro (⟨t, ht⟩ | ⟨a, b, hab⟩)
      · exact ⟨[], t, by simpa using ht⟩
      · exact ⟨c :: a, b, by simp [hab]⟩
    · rintro ⟨a, b, hab⟩
      cases a with
      | nil => exact Or.inl ⟨b, by simpa using hab⟩
      | cons x xs =>
        simp only [List.cons_append, List.cons.injEq] at hab
        exact Or.inr ⟨xs, b, hab.2⟩

theorem stringsContains_iff (s sub : String) :
    stringsContains s sub = true ↔ ContainsSubstring s sub := by
  unfold stringsContains ContainsSubstring
  rw [containsFrom_iff]
  constructor
  · rintro ⟨a, b, hab⟩
    refine ⟨String.mk a, String.mk b, ?_⟩
    apply String.ext
    simpa using hab
  · rintro ⟨pre, post, h⟩
    exact ⟨pre.toList, post.toList, by simp [h]⟩

theorem not_containsSubstring (s sub : String) (h : stringsContains s sub = false) :
    ¬ ContainsSubstring s sub := by
  rw [← stringsContains_iff, h]
  exact Bool.false_ne_true

theorem reserved_iff (pattern : String) :
    (pattern = "main" ∨ pattern = "pattern=main" ∨
      pattern = "all" ∨ pattern = "pattern=all" ∨
      pattern = "std" ∨ pattern = "pattern=std" ∨
      pattern = "cmd" ∨ pattern = "pattern=cmd" ∨
      pattern = "tool" ∨ pattern = "pattern=tool") ↔ pattern ∈ reservedNames := by
  simp [reservedNames]

theorem reserved_not_wildcard (pattern : String) (h : pattern ∈ reservedNames) :
    stringsContains pattern "..." = false := by
  simp only [reservedNames, List.mem_cons, List.mem_singleton, List.not_mem_nil, or_false] at h
  rcases h with h | h | h | h | h | h | h | h | h | h <;> subst h <;> decide

/-! Load -/

section LoadClaims

variable {PErr Ext Cfg : Type}

theorem Load_past_checks (loader : Cfg → List String → LoaderResult PErr Ext)
    (pattern : String) (cfg : Cfg)
    (hres : pattern ∉ reservedNames) (hwild : ¬ ContainsSubstring pattern "...") :
    Load loader pattern cfg =
      match (loader cfg [pattern]).2 with
      | some l => ⟨none, some l, [(cfg, [pattern])]⟩
      | none =>
        match (loader cfg [pattern]).1 with
        | [p0] =>
          match Validate p0 with
          | some v => ⟨none, some v, [(cfg, [pattern])]⟩
          | none => ⟨p0, none, [(cfg, [pattern])]⟩
        | _ => ⟨none, some (GoError.errorString "expected exactly one package"),
            [(cfg, [pattern])]⟩ := by
  have h1 := (reserved_iff pattern).not.mpr hres
  have h2 : stringsContains pattern "..." = false := by
    rw [← Bool.not_eq_true, stringsContains_iff]
    exact hwild
  unfold Load
  rw [if_neg h1, h2]
  rfl

/-- C1: for a pattern that is one of the ten reserved names, whatever the configuration and
the loader, Load returns no descriptor and the error "pattern cannot be a reserved name",
and makes no call to the loader. -/
theorem C1_Load_reserved_name (loader : Cfg → List String → LoaderResult PErr Ext)
    (pattern : String) (cfg : Cfg) (h : pattern ∈ reservedNames) :
    Load loader pattern cfg =
      ⟨none, some (GoError.errorString "pattern cannot be a reserved name"), []⟩ := by
  unfold Load
  rw [if_pos ((reserved_iff pattern).mpr h)]

theorem C1_Load_reserved_name_witness :
    "pattern=std" ∈ reservedNames ∧
    Load sampleLoader "pattern=std" () =
      ⟨none, some (GoError.errorString "pattern cannot be a reserved name"), []⟩ :=
  ⟨by decide, C1_Load_reserved_name sampleLoader "pattern=std" () (by decide)⟩

/-- C2: for a pattern that contains "..." anywhere, whatever the configuration and the
loader, Load returns no descriptor and the error "pattern cannot contain wildcards", and
makes no call to the loader. -/
theorem C2_Load_wildcard (loader : Cfg → List String → LoaderResult PErr Ext)
    (pattern : String) (cfg : Cfg) (h : ContainsSubstring pattern "...") :
    Load loader pattern cfg =
      ⟨none, some (GoError.errorString "pattern cannot contain wildcards"), []⟩ := by
  have hc := (stringsContains_iff pattern "...").mpr h
  have hres : pattern ∉ reservedNames := by
    intro hmem
    rw [reserved_not_wildcard pattern hmem] at hc
    exact Bool.false_ne_true hc
  unfold Load
  rw [if_neg ((reserved_iff pattern).not.mpr hres), hc]
  rfl

theorem C2_Load_wildcard_witness :
    ContainsSubstring "./cmd/..." "..." ∧
    Load sampleLoader "./cmd/..." () =
      ⟨none, some (GoError.errorString "pattern cannot contain wildcards"), []⟩ :=
  ⟨⟨"./cmd/", "", rfl⟩, C2_Load_wildcard sampleLoader "./cmd/..." () ⟨"./cmd/", "", rfl⟩⟩

/-- C3: for a pattern that is neither reserved nor contains "...", when the loader succeeds
with a sequence of descriptors of length 0 or at least 2, Load returns no descriptor and
the error "expected exactly one package", whatever the descriptors are. -/
theorem C3_Load_wrong_count (loader : Cfg → List String → LoaderResult PErr Ext)
    (pattern : String) (cfg : Cfg) (pkgs : List (Option (Package PErr)))
    (hres : pattern ∉ reservedNames) (hwild : ¬ ContainsSubstring pattern "...")
    (hload : loader cfg [pattern] = (pkgs, none))
    (hlen : pkgs.length = 0 ∨ 2 ≤ pkgs.length) :
    Load loader pattern cfg =
      ⟨none, some (GoError.errorString "expected exactly one package"),
        [(cfg, [pattern])]⟩ := by
  rw [Load_past_checks loader pattern cfg hres hwild, hload]
  match pkgs, hlen with
  | [], _ => rfl
  | [_], h => simp at h
  | _ :: _ :: _, _ => rfl

theorem C3_Load_wrong_count_witness :
    "./a" ∉ reservedNames ∧ ¬ ContainsSubstring "./a" "..." ∧
    sampleLoader () ["./a"] = ([some samplePkgClean, some samplePkgBroken], none) ∧
    ([some samplePkgClean, some samplePkgBroken].length = 0 ∨
      2 ≤ [some samplePkgClean, some samplePkgBroken].length) ∧
    Load sampleLoader "./a" () =
      ⟨none, some (GoError.errorString "expected exactly one package"), [((), ["./a"])]⟩ :=
  ⟨by decide, not_containsSubstring _ _ (by decide), rfl, Or.inr (by decide),
    C3_Load_wrong_count sampleLoader "./a" () [some samplePkgClean, some samplePkgBroken]
      (by decide) (not_containsSubstring _ _ (by decide)) rfl (Or.inr (by decide))⟩

/-- C4: for a pattern that is neither reserved nor contains "...", when the loader fails
with error L, Load returns no descriptor and exactly L, whatever descriptors the loader
returned alongside. -/
theorem C4_Load_loader_error (loader : Cfg → List String → LoaderResult PErr Ext)
    (pattern : String) (cfg : Cfg) (pkgs : List (Option (Package PErr)))
    (L : GoError PErr Ext)
    (hres : pattern ∉ reservedNames) (hwild : ¬ ContainsSubstring pattern "...")
    (hload : loader cfg [pattern] = (pkgs, some L)) :
    Load loader pattern cfg = ⟨none, some L, [(cfg, [pattern])]⟩ := by
  rw [Load_past_checks loader pattern cfg hres hwild, hload]

theorem C4_Load_loader_error_witness :
    "gone" ∉ reservedNames ∧ ¬ ContainsSubstring "gone" "..." ∧
    sampleLoader () ["gone"] = ([some samplePkgClean], some (GoError.foreign ())) ∧
    Load sampleLoader "gone" () = ⟨none, some (GoError.foreign ()), [((), ["gone"])]⟩ :=
  ⟨by decide, not_containsSubstring _ _ (by decide), rfl,
    C4_Load_loader_error sampleLoader "gone" () [some samplePkgClean] (GoError.foreign ())
      (by decide) (not_containsSubstring _ _ (by decide)) rfl⟩

/-- C10: for a pattern that is neither reserved nor contains "...", when the loader succeeds
with exactly one descriptor d, Load returns no descriptor and the error of Validate d when
Validate d fails, and returns d itself and no error when Validate d succeeds. -/
theorem C10_Load_single (loader : Cfg → List String → LoaderResult PErr Ext)
    (pattern : String) (cfg : Cfg) (d : Option (Package PErr))
    (hres : pattern ∉ reservedNames) (hwild : ¬ ContainsSubstring pattern "...")
    (hload : loader cfg [pattern] = ([d], none)) :
    Load loader pattern cfg =
      match (Validate d : Option (GoError PErr Ext)) with
      | some v => ⟨none, some v, [(cfg, [pattern])]⟩
      | none => ⟨d, none, [(cfg, [pattern])]⟩ := by
  rw [Load_past_checks loader pattern cfg hres hwild, hload]

theorem C10_Load_single_witness :
    "fmt" ∉ reservedNames ∧ ¬ ContainsSubstring "fmt" "..." ∧
    sampleLoader () ["fmt"] = ([some samplePkgClean], none) ∧
    Load sampleLoader "fmt" () = ⟨some samplePkgClean, none, [((), ["fmt"])]⟩ :=
  ⟨by decide, not_containsSubstring _ _ (by decide), rfl,
    C10_Load_single sampleLoader "fmt" () (some samplePkgClean)
      (by decide) (not_containsSubstring _ _ (by decide)) rfl⟩

end LoadClaims

/-! Validate and the aggregate error -/

section ValidateClaims

variable {PErr Ext : Type}

theorem push_newline (s : String) : s.push '\n' = s ++ "\n" := by
  apply String.ext
  simp

theorem Unwrap_loop (errs : List (GoError PErr Ext)) (es : List PErr) :
    es.foldl (fun errs err => errs ++ [GoError.packagesError err]) errs =
      errs ++ es.map GoError.packagesError := by
  induction es generalizing errs with
  | nil => simp
  | cons x xs ih => simp [ih]

theorem Unwrap_eq_map (e : Error PErr) :
    (Error.Unwrap e : List (GoError PErr Ext)) = e.Errors.map GoError.packagesError := by
  unfold Error.Unwrap
  rw [Unwrap_loop]
  rfl

/-- The aggregate Error that Validate builds from a descriptor (lines 47-51). -/
theorem Validate_some (d : Package PErr) :
    (d.Errors = [] ∧ (d.Module = none ∨ ∃ m, d.Module = some m ∧ m.Error = none) ∧
      (Validate (some d) : Option (GoError PErr Ext)) = none) ∨
    (¬ (d.Errors = [] ∧ (d.Module = none ∨ ∃ m, d.Module = some m ∧ m.Error = none)) ∧
      (Validate (some d) : Option (GoError PErr Ext)) =
        some (GoError.aggregate
          ⟨d.Errors, match d.Module with
            | some m => m.Error
            | none => none⟩)) := by
  obtain ⟨id, es, mo⟩ := d
  cases mo with
  | none => cases es <;> simp [Validate]
  | some m =>
    obtain ⟨path, me⟩ := m
    cases me <;> cases es <;> simp [Validate]

/-- C5: for a non-nil descriptor, Validate returns no error exactly when the error list is
empty and the descriptor has no module or its module has no error; in every other case the
error it returns is an aggregate Error. -/
theorem C5_Validate_ok_iff (d : Package PErr) :
    ((Validate (some d) : Option (GoError PErr Ext)) = none ↔
      d.Errors = [] ∧ (d.Module = none ∨ ∃ m, d.Module = some m ∧ m.Error = none)) ∧
    ((Validate (some d) : Option (GoError PErr Ext)) = none ∨
      ∃ e : Error PErr,
        (Validate (some d) : Option (GoError PErr Ext)) = some (GoError.aggregate e)) := by
  rcases Validate_some d with ⟨h1, h2, hv⟩ | ⟨hn, hv⟩
  · rw [hv]
    exact ⟨⟨fun _ => ⟨h1, h2⟩, fun _ => rfl⟩, Or.inl rfl⟩
  · rw [hv]
    exact ⟨⟨fun h => by simp at h, fun hc => absurd hc hn⟩, Or.inr ⟨_, rfl⟩⟩

/-- C6: for a non-nil descriptor with a non-empty error list, Validate returns an aggregate
Error whose Unwrap sequence has the length of the descriptor's error list and whose i-th
element is the i-th error of that list, for every i. -/
theorem C6_Validate_unwrap (d : Package PErr) (h : d.Errors ≠ []) :
    ∃ e : Error PErr,
      (Validate (some d) : Option (GoError PErr Ext)) = some (GoError.aggregate e) ∧
      (Error.Unwrap e : List (GoError PErr Ext)).length = d.Errors.length ∧
      ∀ i : Nat, (Error.Unwrap e : List (GoError PErr Ext))[i]? =
        (d.Errors[i]?).map GoError.packagesError := by
  rcases Validate_some d with ⟨h1, _, _⟩ | ⟨_, hv⟩
  · exact absurd h1 h
  · rw [hv]
    refine ⟨_, rfl, ?_, ?_⟩
    · rw [Unwrap_eq_map]
      simp
    · intro i
      rw [Unwrap_eq_map]
      simp

theorem C6_Validate_unwrap_witness :
    samplePkgBroken.Errors ≠ [] ∧
    ∃ e : Error String,
      (Validate (some samplePkgBroken) : Option (GoError String Unit)) =
        some (GoError.aggregate e) ∧
      (Error.Unwrap e : List (GoError String Unit)).length = samplePkgBroken.Errors.length ∧
      ∀ i : Nat, (Error.Unwrap e : List (GoError String Unit))[i]? =
        (samplePkgBroken.Errors[i]?).map GoError.packagesError :=
  ⟨by decide, C6_Validate_unwrap samplePkgBroken (by decide)⟩

/-- C9: Validate of an absent (nil) descriptor returns the error "package is nil", which is
not an aggregate Error; the nil branch returns this value at once, so no field of the
descriptor is read on it. -/
theorem C9_Validate_nil :
    (Validate (none : Option (Package PErr)) : Option (GoError PErr Ext)) =
      some (GoError.errorString "package is nil") ∧
    ∀ e : Error PErr,
      (Validate (none : Option (Package PErr)) : Option (GoError PErr Ext)) ≠
        some (GoError.aggregate e) := by
  constructor
  · rfl
  · intro e h
    simp [Validate] at h

/-- The loop of `(*Error).Error` when a module error is present: every entry is followed
by a newline. -/
theorem Error_loop_module (errText : PErr → String) (mo : Option ModuleError) (n : Nat)
    (hmo : mo ≠ none) (es : List PErr) (k : Nat) (sb tail : String) :
    (es.enumFrom k).foldl
      (fun (sb : String) (ie : Nat × PErr) =>
        let sb := sb ++ errText ie.2
        if mo ≠ none ∨ (ie.1 : Int) < (n : Int) - 1 then
          sb.push '\n'
        else sb) sb ++ tail =
      sb ++ es.foldr (fun E rest => errText E ++ "\n" ++ rest) tail := by
  induction es generalizing k sb with
  | nil => simp
  | cons x xs ih =>
    simp only [List.enumFrom_cons, List.foldl_cons, List.foldr_cons]
    rw [ih, if_pos (Or.inl hmo), push_newline]
    simp only [String.append_assoc]

/-- The loop of `(*Error).Error` when no module error is present: a newline follows every
entry but the last. -/
theorem Error_loop_plain (errText : PErr → String) (n : Nat) (xs : List PErr) (x : PErr)
    (k : Nat) (sb : String) (hk : k + (xs.length + 1) = n) :
    ((x :: xs).enumFrom k).foldl
      (fun (sb : String) (ie : Nat × PErr) =>
        let sb := sb ++ errText ie.2
        if (none : Option ModuleError) ≠ none ∨ (ie.1 : Int) < (n : Int) - 1 then
          sb.push '\n'
        else sb) sb =
      String.intercalate.go (sb ++ errText x) "\n" (xs.map errText) := by
  induction xs generalizing k sb x with
  | nil =>
    have hlt : ¬ ((none : Option ModuleError) ≠ none ∨ (k : Int) < (n : Int) - 1) := by
      simp only [List.length_nil] at hk
      rintro (hne | hlt)
      · exact hne rfl
      · omega
    simp only [List.enumFrom_cons, List.enumFrom_nil, List.foldl_cons, List.foldl_nil,
      List.map_nil, String.intercalate.go]
    rw [if_neg hlt]
  | cons y ys ih =>
    have hlt : (none : Option ModuleError) ≠ none ∨ (k : Int) < (n : Int) - 1 := by
      simp only [List.length_cons] at hk
      right
      omega
    rw [List.enumFrom_cons, List.foldl_cons]
    simp only []
    rw [if_pos hlt, ih y (k + 1) _ (by simp at hk ⊢; omega), push_newline]
    simp only [List.map_cons, String.intercalate.go]

/-- C7: for a descriptor with per-package errors E1..En (n ≥ 0) and a module carrying the
module error M, the text of the aggregate Error that Validate returns is
E1.text + "\n" + ... + En.text + "\n" + M.Err; for n = 0 it is exactly M.Err. -/
theorem C7_Validate_text_module (errText : PErr → String) (d : Package PErr)
    (m : Module) (M : ModuleError) (hm : d.Module = some m) (hM : m.Error = some M) :
    ∃ e : Error PErr,
      (Validate (some d) : Option (GoError PErr Ext)) = some (GoError.aggregate e) ∧
      Error.Error errText e =
        d.Errors.foldr (fun E rest => errText E ++ "\n" ++ rest) M.Err := by
  rcases Validate_some d with ⟨_, h2, _⟩ | ⟨_, hv⟩
  · rcases h2 with h2 | ⟨m2, h2, h3⟩
    · rw [hm] at h2
      cases h2
    · rw [hm] at h2
      cases h2
      rw [hM] at h3
      cases h3
  · rw [hv]
    refine ⟨_, rfl, ?_⟩
    rw [hm]
    simp only [hM]
    unfold Error.Error List.enum
    simp only []
    rw [Error_loop_module errText (some M) _ (by simp)]
    simp

theorem C7_Validate_text_module_witness :
    samplePkgBroken.Module = some ⟨"example.com/m", some ⟨"module lookup disabled"⟩⟩ ∧
    (⟨"example.com/m", some ⟨"module lookup disabled"⟩⟩ : Module).Error =
      some ⟨"module lookup disabled"⟩ ∧
    ∃ e : Error String,
      (Validate (some samplePkgBroken) : Option (GoError String Unit)) =
        some (GoError.aggregate e) ∧
      Error.Error id e =
        "p.go:1:1: undefined: x\np.go:2:1: missing return\nmodule lookup disabled" :=
  ⟨rfl, rfl, C7_Validate_text_module id samplePkgBroken
    ⟨"example.com/m", some ⟨"module lookup disabled"⟩⟩ ⟨"module lookup disabled"⟩ rfl rfl⟩

/-- C8: for an aggregate Error with per-package errors E1..En and no module error, Error()
is the texts E1.text, ..., En.text joined with a single "\n" between consecutive entries
and nothing after the last (the empty string for an empty list). -/
theorem C8_Error_text_plain (errText : PErr → String) (e : Error PErr)
    (h : e.ModuleError = none) :
    Error.Error errText e = "\n".intercalate (e.Errors.map errText) := by
  obtain ⟨es, mo⟩ := e
  simp only at h
  subst h
  unfold Error.Error List.enum
  cases es with
  | nil => rfl
  | cons x xs =>
    simp only []
    rw [Error_loop_plain errText _ xs x 0 "" (by simp)]
    simp [String.intercalate]

theorem C8_Error_text_plain_witness :
    (⟨["first", "second", "third"], none⟩ : Error String).ModuleError = none ∧
    Error.Error id (⟨["first", "second", "third"], none⟩ : Error String) =
      "first\nsecond\nthird" :=
  ⟨rfl, C8_Error_text_plain id ⟨["first", "second", "third"], none⟩ rfl⟩

end ValidateClaims

/-! Pattern checks, invariants of the results -/

section ResultClaims

variable {PErr Ext Cfg : Type}

/-- The three ways through the pattern checks of Load (lines 16-27). -/
theorem Load_cases (loader : Cfg → List String → LoaderResult PErr Ext)
    (pattern : String) (cfg : Cfg) :
    (pattern ∈ reservedNames ∧
      Load loader pattern cfg =
        ⟨none, some (GoError.errorString "pattern cannot be a reserved name"), []⟩) ∨
    (pattern ∉ reservedNames ∧ ContainsSubstring pattern "..." ∧
      Load loader pattern cfg =
        ⟨none, some (GoError.errorString "pattern cannot contain wildcards"), []⟩) ∨
    (pattern ∉ reservedNames ∧ ¬ ContainsSubstring pattern "..." ∧
      (Load loader pattern cfg).calls = [(cfg, [pattern])]) := by
  by_cases hres : pattern ∈ reservedNames
  · left
    refine ⟨hres, ?_⟩
    unfold Load
    rw [if_pos ((reserved_iff pattern).mpr hres)]
  · right
    by_cases hw : ContainsSubstring pattern "..."
    · left
      refine ⟨hres, hw, ?_⟩
      unfold Load
      rw [if_neg ((reserved_iff pattern).not.mpr hres), (stringsContains_iff pattern "...").mpr hw]
      rfl
    · right
      refine ⟨hres, hw, ?_⟩
      rw [Load_past_checks loader pattern cfg hres hw]
      rcases loader cfg [pattern] with ⟨pkgs, err⟩
      cases err with
      | some l => rfl
      | none =>
        match pkgs with
        | [] => rfl
        | _ :: _ :: _ => rfl
        | [p0] =>
          simp only []
          cases (Validate p0 : Option (GoError PErr Ext)) <;> rfl

/-- Where an `errors.New` value returned by Load past the pattern checks comes from: the
loader, the count check, or the nil check of Validate. -/
theorem Load_errorString_source (loader : Cfg → List String → LoaderResult PErr Ext)
    (pattern : String) (cfg : Cfg) (msg : String)
    (hres : pattern ∉ reservedNames) (hwild : ¬ ContainsSubstring pattern "...")
    (h : (Load loader pattern cfg).err = some (GoError.errorString msg)) :
    (loader cfg [pattern]).2 = some (GoError.errorString msg) ∨
    msg = "expected exactly one package" ∨ msg = "package is nil" := by
  rw [Load_past_checks loader pattern cfg hres hwild] at h
  revert h
  rcases loader cfg [pattern] with ⟨pkgs, err⟩
  intro h
  cases err with
  | some l =>
    left
    simpa using h
  | none =>
    right
    match pkgs, h with
    | [], h =>
      left
      simpa using h.symm
    | _ :: _ :: _, h =>
      left
      simpa using h.symm
    | [none], h =>
      right
      simpa [Validate] using h.symm
    | [some d], h =>
      exfalso
      simp only [] at h
      rcases Validate_some d with ⟨_, _, hv⟩ | ⟨_, hv⟩
      · rw [hv] at h
        simp at h
      · rw [hv] at h
        simp at h

/-- C11: reserved-name matching is exact and case-sensitive: for a pattern that is none of
the ten reserved names and does not contain "...", Load makes exactly one call to the
loader, with the given configuration and the one-element pattern list; its outcome is
neither of the two local invalid-pattern rejections, and an error with one of their two
messages can only be the loader's own error.  The outcome is what lines 28-37 make of the
loader's answer to exactly that call, so it depends on the loader through that answer
alone: the loader's failure is returned as it is, and two loaders that answer this call
alike give the same outcome. -/
theorem C11_Load_calls_loader (loader : Cfg → List String → LoaderResult PErr Ext)
    (pattern : String) (cfg : Cfg)
    (hres : pattern ∉ reservedNames) (hwild : ¬ ContainsSubstring pattern "...") :
    (Load loader pattern cfg).calls = [(cfg, [pattern])] ∧
    Load loader pattern cfg ≠
      ⟨none, some (GoError.errorString "pattern cannot be a reserved name"), []⟩ ∧
    Load loader pattern cfg ≠
      ⟨none, some (GoError.errorString "pattern cannot contain wildcards"), []⟩ ∧
    ((Load loader pattern cfg).err =
        some (GoError.errorString "pattern cannot be a reserved name") →
      (loader cfg [pattern]).2 =
        some (GoError.errorString "pattern cannot be a reserved name")) ∧
    ((Load loader pattern cfg).err =
        some (GoError.errorString "pattern cannot contain wildcards") →
      (loader cfg [pattern]).2 =
        some (GoError.errorString "pattern cannot contain wildcards")) ∧
    Load loader pattern cfg =
      (match (loader cfg [pattern]).2 with
      | some l => ⟨none, some l, [(cfg, [pattern])]⟩
      | none =>
        match (loader cfg [pattern]).1 with
        | [p0] =>
          match Validate p0 with
          | some v => ⟨none, some v, [(cfg, [pattern])]⟩
          | none => ⟨p0, none, [(cfg, [pattern])]⟩
        | _ => ⟨none, some (GoError.errorString "expected exactly one package"),
            [(cfg, [pattern])]⟩) ∧
    (∀ L : GoError PErr Ext, (loader cfg [pattern]).2 = some L →
      Load loader pattern cfg = ⟨none, some L, [(cfg, [pattern])]⟩) ∧
    (∀ other : Cfg → List String → LoaderResult PErr Ext,
      other cfg [pattern] = loader cfg [pattern] →
      Load other pattern cfg = Load loader pattern cfg) := by
  rcases Load_cases loader pattern cfg with ⟨h, _⟩ | ⟨_, h, _⟩ | ⟨_, _, hc⟩
  · exact absurd h hres
  · exact absurd h hwild
  · refine ⟨hc, ?_, ?_, ?_, ?_, Load_past_checks loader pattern cfg hres hwild, ?_, ?_⟩
    · intro h
      rw [h] at hc
      simp at hc
    · intro h
      rw [h] at hc
      simp at hc
    · intro h
      rcases Load_errorString_source loader pattern cfg _ hres hwild h with h1 | h1 | h1
      · exact h1
      · exact absurd h1 (by decide)
      · exact absurd h1 (by decide)
    · intro h
      rcases Load_errorString_source loader pattern cfg _ hres hwild h with h1 | h1 | h1
      · exact h1
      · exact absurd h1 (by decide)
      · exact absurd h1 (by decide)
    · intro L hL
      rw [Load_past_checks loader pattern cfg hres hwild, hL]
    · intro other hother
      rw [Load_past_checks loader pattern cfg hres hwild,
        Load_past_checks other pattern cfg hres hwild, hother]

theorem C11_Load_calls_loader_witness :
    ("Main" ∉ reservedNames ∧ ¬ ContainsSubstring "Main" "..." ∧
      Load echoLoader "Main" "GOFLAGS=-mod=mod" =
        ⟨some ⟨"GOFLAGS=-mod=mod Main", [], none⟩, none,
          [("GOFLAGS=-mod=mod", ["Main"])]⟩) ∧
    ("ALL" ∉ reservedNames ∧ ¬ ContainsSubstring "ALL" "..." ∧
      Load echoLoader "ALL" "" = ⟨some ⟨" ALL", [], none⟩, none, [("", ["ALL"])]⟩) ∧
    ("std/fmt" ∉ reservedNames ∧ ¬ ContainsSubstring "std/fmt" "..." ∧
      Load echoLoader "std/fmt" "GOOS=linux" =
        ⟨some ⟨"GOOS=linux std/fmt", [], none⟩, none, [("GOOS=linux", ["std/fmt"])]⟩) ∧
    ("pattern=Main" ∉ reservedNames ∧ ¬ ContainsSubstring "pattern=Main" "..." ∧
      (Load sampleLoader "pattern=Main" ()).calls = [((), ["pattern=Main"])]) ∧
    (".." ∉ reservedNames ∧ ¬ ContainsSubstring ".." "..." ∧
      Load sampleLoader ".." () =
        ⟨none, some (GoError.errorString "expected exactly one package"),
          [((), [".."])]⟩) ∧
    ("" ∉ reservedNames ∧ ¬ ContainsSubstring "" "..." ∧
      Load echoLoader "" "GOOS=linux" =
        ⟨some ⟨"GOOS=linux ", [], none⟩, none, [("GOOS=linux", [""])]⟩) ∧
    ("gone" ∉ reservedNames ∧ ¬ ContainsSubstring "gone" "..." ∧
      (sampleLoader () ["gone"]).2 = some (GoError.foreign ()) ∧
      Load sampleLoader "gone" () = ⟨none, some (GoError.foreign ()), [((), ["gone"])]⟩) :=
  ⟨⟨by decide, not_containsSubstring _ _ (by decide),
      (C11_Load_calls_loader echoLoader "Main" "GOFLAGS=-mod=mod" (by decide)
        (not_containsSubstring _ _ (by decide))).2.2.2.2.2.1⟩,
    ⟨by decide, not_containsSubstring _ _ (by decide),
      (C11_Load_calls_loader echoLoader "ALL" "" (by decide)
        (not_containsSubstring _ _ (by decide))).2.2.2.2.2.1⟩,
    ⟨by decide, not_containsSubstring _ _ (by decide),
      (C11_Load_calls_loader echoLoader "std/fmt" "GOOS=linux" (by decide)
        (not_containsSubstring _ _ (by decide))).2.2.2.2.2.1⟩,
    ⟨by decide, not_containsSubstring _ _ (by decide),
      (C11_Load_calls_loader sampleLoader "pattern=Main" () (by decide)
        (not_containsSubstring _ _ (by decide))).1⟩,
    ⟨by decide, not_containsSubstring _ _ (by decide),
      (C11_Load_calls_loader sampleLoader ".." () (by decide)
        (not_containsSubstring _ _ (by decide))).2.2.2.2.2.1⟩,
    ⟨by decide, not_containsSubstring _ _ (by decide),
      (C11_Load_calls_loader echoLoader "" "GOOS=linux" (by decide)
        (not_containsSubstring _ _ (by decide))).2.2.2.2.2.1⟩,
    ⟨by decide, not_containsSubstring _ _ (by decide), rfl,
      (C11_Load_calls_loader sampleLoader "gone" () (by decide)
        (not_containsSubstring _ _ (by decide))).2.2.2.2.2.2.1 (GoError.foreign ()) rfl⟩⟩

/-- Every outcome of Load, by the statement of the source that returns it. -/
theorem Load_outcomes (loader : Cfg → List String → LoaderResult PErr Ext)
    (pattern : String) (cfg : Cfg) :
    Load loader pattern cfg =
      ⟨none, some (GoError.errorString "pattern cannot be a reserved name"), []⟩ ∨
    Load loader pattern cfg =
      ⟨none, some (GoError.errorString "pattern cannot contain wildcards"), []⟩ ∨
    (∃ L, (loader cfg [pattern]).2 = some L ∧
      Load loader pattern cfg = ⟨none, some L, [(cfg, [pattern])]⟩) ∨
    Load loader pattern cfg =
      ⟨none, some (GoError.errorString "expected exactly one package"),
        [(cfg, [pattern])]⟩ ∨
    (∃ p0 v, loader cfg [pattern] = ([p0], none) ∧ Validate p0 = some v ∧
      Load loader pattern cfg = ⟨none, some v, [(cfg, [pattern])]⟩) ∨
    (∃ d, loader cfg [pattern] = ([some d], none) ∧
      (Validate (some d) : Option (GoError PErr Ext)) = none ∧
      Load loader pattern cfg = ⟨some d, none, [(cfg, [pattern])]⟩) := by
  rcases Load_cases loader pattern cfg with ⟨_, h⟩ | ⟨_, _, h⟩ | ⟨hres, hw, _⟩
  · exact Or.inl h
  · exact Or.inr (Or.inl h)
  · right; right
    rw [Load_past_checks loader pattern cfg hres hw]
    rcases loader cfg [pattern] with ⟨pkgs, err⟩
    cases err with
    | some l => exact Or.inl ⟨l, rfl, rfl⟩
    | none =>
      right
      match pkgs with
      | [] => exact Or.inl rfl
      | _ :: _ :: _ => exact Or.inl rfl
      | [p0] =>
        right
        simp only []
        cases hv : (Validate p0 : Option (GoError PErr Ext)) with
        | some v => exact Or.inl ⟨p0, v, rfl, hv, rfl⟩
        | none =>
          cases p0 with
          | none => simp [Validate] at hv
          | some d => exact Or.inr ⟨d, rfl, hv, rfl⟩

/-- C17: no reserved name contains "...", so the two local rejections never compete: Load
ends in the reserved-name rejection exactly when the pattern is one of the ten reserved
names, and in the wildcard rejection exactly when the pattern contains "...". -/
theorem C17_rejections_exclusive (loader : Cfg → List String → LoaderResult PErr Ext)
    (pattern : String) (cfg : Cfg) :
    ¬ (pattern ∈ reservedNames ∧ ContainsSubstring pattern "...") ∧
    (Load loader pattern cfg =
        ⟨none, some (GoError.errorString "pattern cannot be a reserved name"), []⟩ ↔
      pattern ∈ reservedNames) ∧
    (Load loader pattern cfg =
        ⟨none, some (GoError.errorString "pattern cannot contain wildcards"), []⟩ ↔
      ContainsSubstring pattern "...") := by
  have hex : ¬ (pattern ∈ reservedNames ∧ ContainsSubstring pattern "...") := fun h =>
    not_containsSubstring pattern "..." (reserved_not_wildcard pattern h.1) h.2
  refine ⟨hex, ?_, ?_⟩
  · rcases Load_cases loader pattern cfg with ⟨hr, h⟩ | ⟨hr, _, h⟩ | ⟨hr, _, hc⟩
    · exact ⟨fun _ => hr, fun _ => h⟩
    · rw [h]
      exact ⟨fun h2 => by simp at h2, fun h2 => absurd h2 hr⟩
    · refine ⟨fun h2 => ?_, fun h2 => absurd h2 hr⟩
      rw [h2] at hc
      simp at hc
  · rcases Load_cases loader pattern cfg with ⟨hr, h⟩ | ⟨_, hw, h⟩ | ⟨_, hw, hc⟩
    · rw [h]
      exact ⟨fun h2 => by simp at h2, fun h2 => absurd ⟨hr, h2⟩ hex⟩
    · exact ⟨fun _ => hw, fun _ => h⟩
    · refine ⟨fun h2 => ?_, fun h2 => absurd h2 hw⟩
      rw [h2] at hc
      simp at hc

/-- An aggregate Error built by Validate carries at least one underlying error. -/
theorem Validate_aggregate_nonempty (pkg : Option (Package PErr)) (e : Error PErr)
    (h : (Validate pkg : Option (GoError PErr Ext)) = some (GoError.aggregate e)) :
    e.Errors ≠ [] ∨ e.ModuleError ≠ none := by
  cases pkg with
  | none => simp [Validate] at h
  | some d =>
    rcases Validate_some d with ⟨_, _, hv⟩ | ⟨hn, hv⟩
    · rw [hv] at h
      cases h
    · rw [hv] at h
      simp only [Option.some.injEq, GoError.aggregate.injEq] at h
      subst h
      by_cases hes : d.Errors = []
      · right
        cases hm : d.Module with
        | none => exact absurd ⟨hes, Or.inl hm⟩ hn
        | some m =>
          simp only []
          intro hme
          exact hn ⟨hes, Or.inr ⟨m, hm, hme⟩⟩
      · exact Or.inl hes

/-- C12: every aggregate Error that Validate returns has a non-empty per-package error list
or a module error; the same holds for every aggregate Error that Load returns, the loader
(which lies outside this package and does not build aggregate Errors) returning none. -/
theorem C12_aggregate_nonempty (pkg : Option (Package PErr)) (e : Error PErr)
    (loader : Cfg → List String → LoaderResult PErr Ext) (pattern : String) (cfg : Cfg) :
    ((Validate pkg : Option (GoError PErr Ext)) = some (GoError.aggregate e) →
      e.Errors ≠ [] ∨ e.ModuleError ≠ none) ∧
    ((∀ a : Error PErr, (loader cfg [pattern]).2 ≠ some (GoError.aggregate a)) →
      (Load loader pattern cfg).err = some (GoError.aggregate e) →
      e.Errors ≠ [] ∨ e.ModuleError ≠ none) := by
  refine ⟨Validate_aggregate_nonempty pkg e, ?_⟩
  intro hl h
  rcases Load_outcomes loader pattern cfg with
    ho | ho | ⟨L, hL, ho⟩ | ho | ⟨p0, v, _, hv, ho⟩ | ⟨d, _, _, ho⟩
  · rw [ho] at h
    simp at h
  · rw [ho] at h
    simp at h
  · rw [ho] at h
    simp only [Option.some.injEq] at h
    rw [h] at hL
    exact absurd hL (hl e)
  · rw [ho] at h
    simp at h
  · rw [ho] at h
    simp only [Option.some.injEq] at h
    rw [h] at hv
    exact Validate_aggregate_nonempty p0 e hv
  · rw [ho] at h
    simp at h

theorem C12_aggregate_nonempty_witness :
    ((Validate (some samplePkgModuleOnly) : Option (GoError String Unit)) =
        some (GoError.aggregate ⟨[], some ⟨"go.mod is missing"⟩⟩) ∧
      ((⟨[], some ⟨"go.mod is missing"⟩⟩ : Error String).Errors ≠ [] ∨
        (⟨[], some ⟨"go.mod is missing"⟩⟩ : Error String).ModuleError ≠ none)) ∧
    ((∀ a : Error String,
        (sampleLoader () ["example.com/m/p"]).2 ≠ some (GoError.aggregate a)) ∧
      (Load sampleLoader "example.com/m/p" ()).err =
        some (GoError.aggregate
          ⟨samplePkgBroken.Errors, some ⟨"module lookup disabled"⟩⟩) ∧
      ((⟨samplePkgBroken.Errors, some ⟨"module lookup disabled"⟩⟩ : Error String).Errors ≠ [] ∨
        (⟨samplePkgBroken.Errors, some ⟨"module lookup disabled"⟩⟩ :
          Error String).ModuleError ≠ none)) :=
  ⟨⟨rfl, (C12_aggregate_nonempty (some samplePkgModuleOnly)
      ⟨[], some ⟨"go.mod is missing"⟩⟩ sampleLoader "fmt" ()).1 rfl⟩,
    ⟨(fun _ h => by cases h), rfl,
      (C12_aggregate_nonempty (some samplePkgBroken)
        ⟨samplePkgBroken.Errors, some ⟨"module lookup disabled"⟩⟩
        sampleLoader "example.com/m/p" ()).2 (fun _ h => by cases h) rfl⟩⟩

/-- C15: Load returns exactly one of a descriptor and an error, whatever the pattern, the
configuration and the loader; when the loader succeeds with a single absent (nil) descriptor,
Load returns no descriptor and the error "package is nil". -/
theorem C15_Load_exactly_one (loader : Cfg → List String → LoaderResult PErr Ext)
    (pattern : String) (cfg : Cfg) :
    (((Load loader pattern cfg).pkg ≠ none ∧ (Load loader pattern cfg).err = none) ∨
      ((Load loader pattern cfg).pkg = none ∧ (Load loader pattern cfg).err ≠ none)) ∧
    (pattern ∉ reservedNames → ¬ ContainsSubstring pattern "..." →
      loader cfg [pattern] = ([none], none) →
      Load loader pattern cfg =
        ⟨none, some (GoError.errorString "package is nil"), [(cfg, [pattern])]⟩) := by
  constructor
  · rcases Load_outcomes loader pattern cfg with
      ho | ho | ⟨L, _, ho⟩ | ho | ⟨p0, v, _, _, ho⟩ | ⟨d, _, _, ho⟩
    all_goals rw [ho]
    all_goals simp
  · intro hres hw hl
    rw [Load_past_checks loader pattern cfg hres hw, hl]
    rfl

theorem C15_Load_exactly_one_witness :
    "fmt" ∉ reservedNames ∧ ¬ ContainsSubstring "fmt" "..." ∧
    nilLoader () ["fmt"] = ([none], none) ∧
    Load nilLoader "fmt" () =
      ⟨none, some (GoError.errorString "package is nil"), [((), ["fmt"])]⟩ :=
  ⟨by decide, not_containsSubstring _ _ (by decide), rfl,
    (C15_Load_exactly_one nilLoader "fmt" ()).2 (by decide)
      (not_containsSubstring _ _ (by decide)) rfl⟩

/-- C16: a descriptor that Load returns without error is non-nil and passes Validate: its
error list is empty and it has no module or its module has no error. -/
theorem C16_Load_success_valid (loader : Cfg → List String → LoaderResult PErr Ext)
    (pattern : String) (cfg : Cfg) (h : (Load loader pattern cfg).err = none) :
    ∃ d : Package PErr, (Load loader pattern cfg).pkg = some d ∧
      (Validate (some d) : Option (GoError PErr Ext)) = none ∧
      d.Errors = [] ∧ (d.Module = none ∨ ∃ m, d.Module = some m ∧ m.Error = none) := by
  rcases Load_outcomes loader pattern cfg with
    ho | ho | ⟨L, _, ho⟩ | ho | ⟨p0, v, _, _, ho⟩ | ⟨d, _, hv, ho⟩
  · rw [ho] at h
    simp at h
  · rw [ho] at h
    simp at h
  · rw [ho] at h
    simp at h
  · rw [ho] at h
    simp at h
  · rw [ho] at h
    simp at h
  · rw [ho]
    refine ⟨d, rfl, hv, ?_⟩
    rcases Validate_some d with ⟨h1, h2, _⟩ | ⟨_, hv2⟩
    · exact ⟨h1, h2⟩
    · rw [hv] at hv2
      cases hv2

theorem C16_Load_success_valid_witness :
    (Load sampleLoader "fmt" ()).err = none ∧
    ∃ d : Package String, (Load sampleLoader "fmt" ()).pkg = some d ∧
      (Validate (some d) : Option (GoError String Unit)) = none ∧
      d.Errors = [] ∧ (d.Module = none ∨ ∃ m, d.Module = some m ∧ m.Error = none) :=
  ⟨rfl, C16_Load_success_valid sampleLoader "fmt" () rfl⟩

/-- The fields of the aggregate Error that Validate returns (lines 48-51). -/
theorem Validate_aggregate_fields (d : Package PErr) (e : Error PErr)
    (h : (Validate (some d) : Option (GoError PErr Ext)) = some (GoError.aggregate e)) :
    e.Errors = d.Errors ∧
    e.ModuleError = (match d.Module with
      | some m => m.Error
      | none => none) := by
  rcases Validate_some d with ⟨_, _, hv⟩ | ⟨_, hv⟩
  · rw [hv] at h
    cases h
  · rw [hv] at h
    simp only [Option.some.injEq, GoError.aggregate.injEq] at h
    subst h
    exact ⟨rfl, rfl⟩

/-- C13: Unwrap of an aggregate Error is exactly its per-package errors in order, each as
an error value, so it has length len(Errors), never holds the module error and does not
depend on it; for a descriptor with only a module error M, the aggregate Error of Validate
unwraps to the empty sequence while its text is M.Err. -/
theorem C13_Unwrap_package_errors_only (errText : PErr → String) (e : Error PErr) :
    (Error.Unwrap e : List (GoError PErr Ext)) = e.Errors.map GoError.packagesError ∧
    (Error.Unwrap e : List (GoError PErr Ext)).length = e.Errors.length ∧
    (∀ mo : Option ModuleError,
      (Error.Unwrap (⟨e.Errors, mo⟩ : Error PErr) : List (GoError PErr Ext)) =
        Error.Unwrap e) ∧
    (∀ (d : Package PErr) (m : Module) (M : ModuleError),
      d.Errors = [] → d.Module = some m → m.Error = some M →
      ∃ a : Error PErr,
        (Validate (some d) : Option (GoError PErr Ext)) = some (GoError.aggregate a) ∧
        (Error.Unwrap a : List (GoError PErr Ext)) = [] ∧
        Error.Error errText a = M.Err) := by
  refine ⟨Unwrap_eq_map e, ?_, ?_, ?_⟩
  · rw [Unwrap_eq_map]
    simp
  · intro mo
    rw [Unwrap_eq_map, Unwrap_eq_map]
  · intro d m M hes hm hM
    rcases Validate_some d with ⟨_, h2, _⟩ | ⟨_, hv⟩
    · rcases h2 with h2 | ⟨m2, h2, h3⟩
      · rw [hm] at h2
        cases h2
      · rw [hm] at h2
        cases h2
        rw [hM] at h3
        cases h3
    · rw [hv]
      refine ⟨_, rfl, ?_, ?_⟩
      · rw [Unwrap_eq_map]
        simp [hes]
      · rw [hm]
        simp only [hM, hes]
        simp [Error.Error, List.enum]

theorem C13_Unwrap_package_errors_only_witness :
    samplePkgModuleOnly.Errors = [] ∧
    samplePkgModuleOnly.Module = some ⟨"example.com/m", some ⟨"go.mod is missing"⟩⟩ ∧
    (⟨"example.com/m", some ⟨"go.mod is missing"⟩⟩ : Module).Error =
      some ⟨"go.mod is missing"⟩ ∧
    ∃ a : Error String,
      (Validate (some samplePkgModuleOnly) : Option (GoError String Unit)) =
        some (GoError.aggregate a) ∧
      (Error.Unwrap a : List (GoError String Unit)) = [] ∧
      Error.Error id a = "go.mod is missing" :=
  ⟨rfl, rfl, rfl,
    (C13_Unwrap_package_errors_only id
      (⟨["first"], none⟩ : Error String)).2.2.2 samplePkgModuleOnly
      ⟨"example.com/m", some ⟨"go.mod is missing"⟩⟩ ⟨"go.mod is missing"⟩ rfl rfl rfl⟩

/-- C14: when Validate returns an aggregate Error for a descriptor, its per-package error
list is the descriptor's error list, and its module error is the module's error when the
descriptor has a module (so absent when that module carries no error) and absent when the
descriptor has no module. -/
theorem C14_Validate_copies (d : Package PErr) (e : Error PErr)
    (h : (Validate (some d) : Option (GoError PErr Ext)) = some (GoError.aggregate e)) :
    e.Errors = d.Errors ∧
    (∀ m : Module, d.Module = some m → e.ModuleError = m.Error) ∧
    (d.Module = none → e.ModuleError = none) ∧
    (∀ m : Module, d.Module = some m → m.Error = none → e.ModuleError = none) := by
  obtain ⟨h1, h2⟩ := Validate_aggregate_fields d e h
  refine ⟨h1, ?_, ?_, ?_⟩
  · intro m hm
    rw [h2, hm]
  · intro hm
    rw [h2, hm]
  · intro m hm hme
    rw [h2, hm]
    exact hme

theorem C14_Validate_copies_witness :
    (Validate (some samplePkgBroken) : Option (GoError String Unit)) =
      some (GoError.aggregate
        ⟨samplePkgBroken.Errors, some ⟨"module lookup disabled"⟩⟩) ∧
    (⟨samplePkgBroken.Errors, some ⟨"module lookup disabled"⟩⟩ : Error String).Errors =
      samplePkgBroken.Errors ∧
    ∀ m : Module, samplePkgBroken.Module = some m →
      (⟨samplePkgBroken.Errors, some ⟨"module lookup disabled"⟩⟩ :
        Error String).ModuleError = m.Error :=
  ⟨rfl,
    (@C14_Validate_copies String Unit samplePkgBroken
      ⟨samplePkgBroken.Errors, some ⟨"module lookup disabled"⟩⟩ rfl).1,
    (@C14_Validate_copies String Unit samplePkgBroken
      ⟨samplePkgBroken.Errors, some ⟨"module lookup disabled"⟩⟩ rfl).2.1⟩

end ResultClaims

end Loadpackage
